import Mathlib

/-!
Verification of the mongodb-developer/golang-quickstart sample programs.

The repository is a set of short Go programs issuing CRUD, aggregation,
change-stream and transaction calls against MongoDB through the official
driver.  This file shallowly embeds the documents the samples exchange with
the database, the query filters and update documents the samples build, the
error-handling shape of each sample's main routine, and — where a claim is
decided by the external database collaborator rather than by code in the
repository — a model of the collaborator's documented contract, each such
definition marked "Modelled from the spec".
-/

namespace MongoGo

/-! ## BSON document model

The documents appearing in the samples are flat documents whose values are
strings, 32/64-bit integers (modelled as Int; no sample relies on overflow),
object identifiers (modelled as Nat), arrays of scalars (the podcast tags),
and one level of sub-document (the change event's fullDocument).  -/

inductive BScalar where
  | str : String → BScalar
  | int : Int → BScalar
  | oid : Nat → BScalar
  deriving DecidableEq, Repr

inductive BVal where
  | scal : BScalar → BVal
  | arr : List BScalar → BVal
  | subdoc : List (String × BScalar) → BVal
  deriving DecidableEq, Repr

/-- A BSON document: an ordered list of field-name / value pairs. -/
abbrev BDoc := List (String × BVal)

/-- First value stored under a key, as BSON field lookup finds it. -/
def getField : BDoc → String → Option BVal
  | [], _ => none
  | (k, v) :: rest, key => if k = key then some v else getField rest key

/-- Field lookup inside a sub-document. -/
def getSubField : List (String × BScalar) → String → Option BScalar
  | [], _ => none
  | (k, v) :: rest, key => if k = key then some v else getSubField rest key

/-- Resolution of a (possibly dotted) field path against a document.  The Go
samples write dotted keys as single strings (the change-stream sample uses
the key "fullDocument.duration"); the embedding carries the path split at the
dots. -/
def resolvePath (d : BDoc) : List String → Option BVal
  | [k] => getField d k
  | [k1, k2] =>
    match getField d k1 with
    | some (BVal.subdoc sub) => (getSubField sub k2).map BVal.scal
    | _ => none
  | _ => none

/-! ## Query filters

The filters the samples construct use only field-equality conditions
(bson.M with a literal value) and a dollar-gt condition.  -/

inductive QCond where
  | eqv : BVal → QCond
  | gt : Int → QCond
  deriving DecidableEq, Repr

abbrev QFilter := List (List String × QCond)

/-- Modelled from the spec: the collaborator's evaluation of one filter
condition against the value found at the condition's field path.  Equality
requires the field to be present with the given value; dollar-gt requires a
present integer strictly greater than the bound. -/
def condHolds : QCond → Option BVal → Bool
  | QCond.eqv v, some w => decide (w = v)
  | QCond.eqv _, none => false
  | QCond.gt n, some (BVal.scal (BScalar.int m)) => decide (n < m)
  | QCond.gt _, _ => false

/-- Modelled from the spec: a document matches a filter when every condition
holds at its field path (conjunctive match semantics). -/
def docMatches (f : QFilter) (d : BDoc) : Bool :=
  f.all (fun kc => condHolds kc.snd (resolvePath d kc.fst))

/-- Modelled from the spec: Find returns exactly the documents of the
collection that match the filter, in collection order. -/
def findDocs (f : QFilter) (coll : List BDoc) : List BDoc :=
  coll.filter (fun d => docMatches f d)

/-! ## Claim C7: the retrieval sample's second query -/

/-- The filter of the retrieval sample's second query,
bson.M with the single pair duration ↦ 25 (retrieving/main.go line 33). -/
def filterDuration25 : QFilter :=
  [(["duration"], QCond.eqv (BVal.scal (BScalar.int 25)))]

/-- C7: Find with filter duration = 25 returns exactly the documents whose
duration field equals the integer 25: membership in the result is equivalent
to membership in the collection together with the duration field being
present and equal to 25, so no document with a different or absent duration
field is returned. -/
theorem find_duration25_exact (coll : List BDoc) (d : BDoc) :
    d ∈ findDocs filterDuration25 coll ↔
      d ∈ coll ∧ getField d "duration" = some (BVal.scal (BScalar.int 25)) := by
  unfold findDocs filterDuration25
  rw [List.mem_filter]
  constructor
  · rintro ⟨hmem, hmatch⟩
    refine ⟨hmem, ?_⟩
    simp only [docMatches, List.all_cons, List.all_nil, Bool.and_true] at hmatch
    simp only [resolvePath] at hmatch
    cases h : getField d "duration" with
    | none => rw [h] at hmatch; simp [condHolds] at hmatch
    | some v =>
      rw [h] at hmatch
      simp only [condHolds, decide_eq_true_eq] at hmatch
      rw [hmatch]
  · rintro ⟨hmem, hdur⟩
    refine ⟨hmem, ?_⟩
    simp [docMatches, resolvePath, hdur, condHolds]

/-! ## Claim C5: the filtered change-stream pipeline -/

/-- The match pipeline both change-stream samples register, from the source
(bson.D with operationType ↦ "insert" and "fullDocument.duration" ↦
dollar-gt 30); the dotted source key is carried as the split path. -/
def matchPipeline : QFilter :=
  [(["operationType"], QCond.eqv (BVal.scal (BScalar.str "insert"))),
   (["fullDocument", "duration"], QCond.gt 30)]

/-- Modelled from the spec: Watch with a registered match pipeline emits
exactly the change events matching the pipeline. -/
def watchEmits (f : QFilter) (events : List BDoc) : List BDoc :=
  events.filter (fun e => docMatches f e)

/-- The consumption loop of the change-stream samples (iterateChangeStream
and ChangeStream): every event the stream yields is decoded and printed. -/
def changeStreamLoopPrints (emitted : List BDoc) : List BDoc :=
  emitted

/-- The events printed by the filtered change-stream sample: the consumption
loop applied to what Watch emits under the registered pipeline. -/
def filteredSamplePrinted (events : List BDoc) : List BDoc :=
  changeStreamLoopPrints (watchEmits matchPipeline events)

/-- C5: an event is printed by the filtered change-stream sample exactly when
it occurred, its operationType is "insert", and its fullDocument carries an
integer duration strictly greater than 30; hence no replace event, no event
with duration at most 30, and no event lacking an integer duration is ever
printed, while every insert event with duration above 30 passes the
pipeline. -/
theorem changestream_printed_iff (events : List BDoc) (e : BDoc) :
    e ∈ filteredSamplePrinted events ↔
      e ∈ events ∧
        getField e "operationType" = some (BVal.scal (BScalar.str "insert")) ∧
        ∃ sub n, getField e "fullDocument" = some (BVal.subdoc sub) ∧
          getSubField sub "duration" = some (BScalar.int n) ∧ 30 < n := by
  unfold filteredSamplePrinted changeStreamLoopPrints watchEmits
  rw [List.mem_filter]
  refine and_congr_right fun _ => ?_
  simp only [docMatches, matchPipeline, List.all_cons, List.all_nil,
    Bool.and_true, Bool.and_eq_true]
  constructor
  · rintro ⟨hop, hdur⟩
    simp only [resolvePath] at hop hdur
    refine ⟨?_, ?_⟩
    · cases h : getField e "operationType" with
      | none => rw [h] at hop; simp [condHolds] at hop
      | some v =>
        rw [h] at hop
        simp only [condHolds, decide_eq_true_eq] at hop
        rw [hop]
    · cases h : getField e "fullDocument" with
      | none => rw [h] at hdur; simp [condHolds] at hdur
      | some v =>
        rw [h] at hdur
        cases v with
        | scal s => simp [condHolds] at hdur
        | arr a => simp [condHolds] at hdur
        | subdoc sub =>
          cases h2 : getSubField sub "duration" with
          | none => simp [h2, condHolds] at hdur
          | some s =>
            cases s with
            | str t => simp [h2, condHolds] at hdur
            | oid i => simp [h2, condHolds] at hdur
            | int n =>
              simp only [h2, Option.map_some', condHolds, decide_eq_true_eq] at hdur
              exact ⟨sub, n, rfl, h2, hdur⟩
  · rintro ⟨hop, sub, n, hfd, hdur, hgt⟩
    constructor
    · simp [resolvePath, hop, condHolds]
    · simp [resolvePath, hfd, hdur, condHolds, hgt]

/-! ## Claim C8: insert then find by generated identifier -/

/-- Modelled from the spec: InsertOne of a document without an identifier
stores the document extended with the generated identifier field and returns
that identifier (the driver places the generated underscore-id field in
front of the document's own fields). -/
def insertOne (genId : Nat) (d : BDoc) (coll : List BDoc) :
    List BDoc × Nat :=
  (coll ++ [("_id", BVal.scal (BScalar.oid genId)) :: d], genId)

/-- The inserted document as stored: the source document extended with the
generated identifier field. -/
def withId (id : Nat) (d : BDoc) : BDoc :=
  ("_id", BVal.scal (BScalar.oid id)) :: d

/-- A query filtered on the underscore-id field, as the retrieval samples
build it from an ObjectID value. -/
def filterById (id : Nat) : QFilter :=
  [(["_id"], QCond.eqv (BVal.scal (BScalar.oid id)))]

/-- A document matches the by-id filter exactly when its underscore-id field
holds that identifier. -/
theorem docMatches_filterById (id : Nat) (d : BDoc) :
    docMatches (filterById id) d = true ↔
      getField d "_id" = some (BVal.scal (BScalar.oid id)) := by
  simp only [docMatches, filterById, List.all_cons, List.all_nil,
    Bool.and_true, resolvePath]
  cases h : getField d "_id" with
  | none => simp [condHolds]
  | some v =>
    simp only [condHolds, decide_eq_true_eq]
    constructor
    · intro hv; rw [hv]
    · intro hv; injection hv

/-- C8: inserting a document that carries no identifier field into a
collection holding no document with the generated identifier, and then
querying with the filter on that identifier, returns exactly the inserted
document extended with the identifier field — the insert/find-by-id round
trip is the identity on the inserted fields. -/
theorem insert_then_find_roundtrip (genId : Nat) (d : BDoc) (coll : List BDoc)
    (hfresh : ∀ c ∈ coll,
      getField c "_id" ≠ some (BVal.scal (BScalar.oid genId))) :
    findDocs (filterById genId) (insertOne genId d coll).fst =
      [withId genId d] := by
  unfold insertOne findDocs
  simp only [List.filter_append]
  have h1 : coll.filter (fun c => docMatches (filterById genId) c) = [] := by
    rw [List.filter_eq_nil_iff]
    intro c hc
    intro hmatch
    exact hfresh c hc ((docMatches_filterById genId c).mp hmatch)
  have h2 : docMatches (filterById genId)
      (("_id", BVal.scal (BScalar.oid genId)) :: d) = true := by
    rw [docMatches_filterById]
    simp [getField]
  rw [h1]
  simp only [List.nil_append, List.filter_cons, h2, List.filter_nil]
  rfl

/-- The podcast document the create sample inserts (part of the source of
the round-trip claim): title, author and tags of the Polyglot Developer
Podcast. -/
def podcastDoc : BDoc :=
  [("title", BVal.scal (BScalar.str "The Polyglot Developer Podcast")),
   ("author", BVal.scal (BScalar.str "Nic Raboy")),
   ("tags", BVal.arr [BScalar.str "development", BScalar.str "programming",
      BScalar.str "coding"])]

/-- Witness for C8: the round trip at the concrete podcast document of the
create sample, a fresh identifier and the empty collection. -/
theorem insert_then_find_roundtrip_witness :
    findDocs (filterById 7) (insertOne 7 podcastDoc []).fst =
      [withId 7 podcastDoc] :=
  insert_then_find_roundtrip 7 podcastDoc [] (by intro c hc; simp at hc)

/-! ## The Go data structures and their BSON serialization

Episode and Podcast from the source (transactions/main.go lines 12-19 and the
identical declarations in the other samples).  Every field carries the
omitempty BSON option, so the driver omits a field whose value is the Go
zero value: the zero ObjectID, the empty string, the int32 zero, the nil
tag slice.  ObjectID values are modelled as Nat with 0 the zero ObjectID. -/

structure Episode where
  id : Nat
  podcast : Nat
  title : String
  description : String
  duration : Int
  deriving DecidableEq, Repr

structure Podcast where
  id : Nat
  title : String
  author : String
  tags : List String
  deriving DecidableEq, Repr

/-- Serialization of an Episode under the source's BSON tags: each of the
five fields carries omitempty, so a zero-valued field produces no BSON field
at all. -/
def Episode.toBson (e : Episode) : BDoc :=
  (if e.id = 0 then [] else [("_id", BVal.scal (BScalar.oid e.id))]) ++
  (if e.podcast = 0 then [] else
    [("podcast", BVal.scal (BScalar.oid e.podcast))]) ++
  (if e.title = "" then [] else [("title", BVal.scal (BScalar.str e.title))]) ++
  (if e.description = "" then [] else
    [("description", BVal.scal (BScalar.str e.description))]) ++
  (if e.duration = 0 then [] else
    [("duration", BVal.scal (BScalar.int e.duration))])

/-- Serialization of a Podcast under the source's BSON tags, all fields
omitempty. -/
def Podcast.toBson (p : Podcast) : BDoc :=
  (if p.id = 0 then [] else [("_id", BVal.scal (BScalar.oid p.id))]) ++
  (if p.title = "" then [] else [("title", BVal.scal (BScalar.str p.title))]) ++
  (if p.author = "" then [] else
    [("author", BVal.scal (BScalar.str p.author))]) ++
  (if p.tags = [] then [] else
    [("tags", BVal.arr (p.tags.map BScalar.str))])

/-! ## Claim C10: omitempty and the duration validation rule -/

/-- Modelled from the spec: the server-side schema-validation rule used by
the transaction tutorial, a JSON-schema property constraint requiring the
duration field, when present, to be an integer of at least the minimum;  a
document without a duration field satisfies the property constraint. -/
def durationRulePasses (minDur : Int) (d : BDoc) : Bool :=
  match getField d "duration" with
  | some (BVal.scal (BScalar.int n)) => decide (minDur ≤ n)
  | some _ => false
  | none => true

theorem getField_append_left {d1 d2 : BDoc} {k : String}
    (h : getField d1 k = none) : getField (d1 ++ d2) k = getField d2 k := by
  induction d1 with
  | nil => rfl
  | cons p rest ih =>
    obtain ⟨k1, v1⟩ := p
    simp only [getField] at h ⊢
    by_cases hk : k1 = k
    · rw [if_pos hk] at h; exact absurd h (by simp)
    · rw [if_neg hk] at h ⊢; exact ih h

/-- C10: for every Episode whose Duration is the Go zero value 0, the
serialized document carries no duration field at all, and therefore passes
the duration-minimum validation rule for every minimum — a zero-duration
episode cannot be rejected by a rule constraining the duration field's
value. -/
theorem episode_zero_duration_omitted (e : Episode) (h : e.duration = 0) :
    getField (Episode.toBson e) "duration" = none ∧
      ∀ m : Int, durationRulePasses m (Episode.toBson e) = true := by
  have hblock : ∀ (c : Prop) (inst : Decidable c) (k : String) (v : BVal),
      k ≠ "duration" →
      getField (if c then ([] : BDoc) else [(k, v)]) "duration" = none := by
    intro c inst k v hk
    by_cases hc : c
    · rw [if_pos hc]; rfl
    · rw [if_neg hc]
      show getField ((k, v) :: []) "duration" = none
      simp [getField, hk]
  have habs : getField (Episode.toBson e) "duration" = none := by
    unfold Episode.toBson
    rw [h, if_pos rfl, List.append_nil]
    simp only [List.append_assoc]
    rw [getField_append_left (hblock _ _ _ _ (by decide))]
    rw [getField_append_left (hblock _ _ _ _ (by decide))]
    rw [getField_append_left (hblock _ _ _ _ (by decide))]
    exact hblock _ _ _ _ (by decide)
  refine ⟨habs, fun m => ?_⟩
  unfold durationRulePasses
  rw [habs]

/-- Witness for C10: the concrete zero-duration episode obtained from the
transaction sample's second insert with its duration set to 0 serializes
without a duration field and passes the rule with minimum 2. -/
theorem episode_zero_duration_omitted_witness :
    getField
        (Episode.toBson
          { id := 0, podcast := 0, title := "Transactions for All",
            description := "", duration := 0 }) "duration" = none ∧
      ∀ m : Int, durationRulePasses m
        (Episode.toBson
          { id := 0, podcast := 0, title := "Transactions for All",
            description := "", duration := 0 }) = true :=
  episode_zero_duration_omitted
    { id := 0, podcast := 0, title := "Transactions for All",
      description := "", duration := 0 } rfl

/-! ## The transaction samples (claims C2 and C3) -/

inductive TxErr where
  | rejected : BDoc → TxErr
  | commitFailed : TxErr
  deriving DecidableEq, Repr

/-- Modelled from the spec: InsertOne against a collection carrying a
server-side validation rule appends the document when the rule accepts it
and reports a write error otherwise. -/
def insertValidated (valid : BDoc → Bool) (d : BDoc) (coll : List BDoc) :
    Except TxErr (List BDoc) :=
  if valid d then Except.ok (coll ++ [d]) else Except.error (TxErr.rejected d)

/-- The first episode the transaction body inserts (Duration 15). -/
def txEp1 : Episode :=
  { id := 0, podcast := 0, title := "A Transaction Episode for the Ages",
    description := "", duration := 15 }

/-- The second episode the transaction body inserts (Duration 2). -/
def txEp2 : Episode :=
  { id := 0, podcast := 0, title := "Transactions for All",
    description := "", duration := 2 }

/-- The transaction body closure of transactions/main.go: first InsertOne,
returning its error if non-nil; second InsertOne, returning its error if
non-nil; otherwise success.  The threaded state is the session's staged view
of the episodes collection. -/
def transactionBody (valid : BDoc → Bool) (coll : List BDoc) :
    Except TxErr (List BDoc) :=
  match insertValidated valid (Episode.toBson txEp1) coll with
  | Except.error e => Except.error e
  | Except.ok c1 =>
    match insertValidated valid (Episode.toBson txEp2) c1 with
    | Except.error e => Except.error e
    | Except.ok c2 => Except.ok c2

/-- Outcome of running a whole sample process: the process finished
normally, or died in a panic carrying an error; both record the state the
collection is left in. -/
inductive RunOutcome where
  | completed : List BDoc → RunOutcome
  | panicked : TxErr → List BDoc → RunOutcome
  deriving DecidableEq, Repr

/-- Modelled from the spec: WithTransaction runs the body inside the session
and decides by a single branch — on body error the transaction is aborted,
the staged writes are discarded and the error is returned; on body success
the transaction is committed.  The sample's main then panics with any error
WithTransaction returned. -/
def withTransactionRun (valid : BDoc → Bool) (coll : List BDoc) : RunOutcome :=
  match transactionBody valid coll with
  | Except.ok staged => RunOutcome.completed staged
  | Except.error e => RunOutcome.panicked e coll

/-- The podcast document the manual transaction sample (part_003) inserts:
Title "Transactions for All", Author "Nic Raboy", remaining fields zero. -/
def txPodcastDoc : BDoc :=
  Podcast.toBson
    { id := 0, title := "Transactions for All", author := "Nic Raboy",
      tags := [] }

/-- The manual transaction sample of part_003: StartTransaction, then a body
that panics on insert error (committing nothing), calls CommitTransaction on
success and panics on commit error.  The commitOk flag models whether the
collaborator accepts the commit. -/
def manualTransactionRun (valid : BDoc → Bool) (commitOk : Bool)
    (coll : List BDoc) : RunOutcome :=
  match insertValidated valid txPodcastDoc coll with
  | Except.error e => RunOutcome.panicked e coll
  | Except.ok staged =>
    if commitOk then RunOutcome.completed staged
    else RunOutcome.panicked TxErr.commitFailed coll

/-- C3: complete characterization of both transaction samples.  Every error
path surfaces the error (the process panics with it) and leaves the
collection untouched — the transaction is aborted, never committed after a
body error, and no body error is discarded; the commit path exists exactly
when every write of the body was accepted, and then commits all of them. -/
theorem transaction_samples_commit_or_abort (valid : BDoc → Bool)
    (commitOk : Bool) (coll : List BDoc) :
    withTransactionRun valid coll =
      (if valid (Episode.toBson txEp1) then
        if valid (Episode.toBson txEp2) then
          RunOutcome.completed
            (coll ++ [Episode.toBson txEp1] ++ [Episode.toBson txEp2])
        else RunOutcome.panicked (TxErr.rejected (Episode.toBson txEp2)) coll
      else RunOutcome.panicked (TxErr.rejected (Episode.toBson txEp1)) coll) ∧
    manualTransactionRun valid commitOk coll =
      (if valid txPodcastDoc then
        if commitOk then RunOutcome.completed (coll ++ [txPodcastDoc])
        else RunOutcome.panicked TxErr.commitFailed coll
      else RunOutcome.panicked (TxErr.rejected txPodcastDoc) coll) := by
  constructor
  · unfold withTransactionRun transactionBody insertValidated
    by_cases h1 : valid (Episode.toBson txEp1) = true
    · by_cases h2 : valid (Episode.toBson txEp2) = true
      · simp [h1, h2, List.append_assoc]
      · simp [h1, h2]
    · simp [h1]
  · unfold manualTransactionRun insertValidated
    by_cases h1 : valid txPodcastDoc = true
    · by_cases h2 : commitOk = true
      · simp [h1, h2]
      · simp [h1, h2]
    · simp [h1]

/-- State of the collection visible after the process runs, whether it
finished or panicked. -/
def visibleAfter : RunOutcome → List BDoc
  | RunOutcome.completed c => c
  | RunOutcome.panicked _ c => c

/-- C2: if the transaction body's second insert is rejected by the
duration-minimum validation rule, the episodes collection after the
transaction equals the collection before it — the first insert is rolled
back and zero documents from the body are visible. -/
theorem transaction_rollback_on_rejected_second_insert (m : Int)
    (coll : List BDoc)
    (h : durationRulePasses m (Episode.toBson txEp2) = false) :
    visibleAfter (withTransactionRun (durationRulePasses m) coll) = coll := by
  unfold withTransactionRun transactionBody insertValidated
  by_cases h1 : durationRulePasses m (Episode.toBson txEp1) = true
  · simp [h1, h, visibleAfter]
  · simp [h1, visibleAfter]

/-- Witness for C2: with minimum 3 the second episode (Duration 2) is
rejected, and the run leaves the empty collection empty. -/
theorem transaction_rollback_on_rejected_second_insert_witness :
    visibleAfter (withTransactionRun (durationRulePasses 3) []) = [] :=
  transaction_rollback_on_rejected_second_insert 3 [] (by decide)

/-! ## Claim C4: the change-stream join counter

Both change-stream samples declare a sync.WaitGroup in main, call Add(1)
before launching the goroutine, and pass the WaitGroup to the goroutine.
The parameter type written in the source (iterateChangeStream in the one
sample, ChangeStream in the filtered one) is sync.WaitGroup itself, not a
pointer to it, so Go passes the goroutine a copy of the counter. -/

structure WaitGroup where
  counter : Int
  deriving DecidableEq, Repr

def WaitGroup.add (wg : WaitGroup) (n : Int) : WaitGroup :=
  { counter := wg.counter + n }

def WaitGroup.done (wg : WaitGroup) : WaitGroup :=
  { counter := wg.counter - 1 }

/-- Wait returns only once the counter it observes is zero. -/
def WaitGroup.waitReleased (wg : WaitGroup) : Bool :=
  wg.counter == 0

/-- The main task's counter right before launching the goroutine: a fresh
WaitGroup after the waitGroup.Add(1) call. -/
def mainWaitGroup : WaitGroup :=
  WaitGroup.add { counter := 0 } 1

/-- The goroutine launch with a by-value WaitGroup argument: the pair of the
main task's counter and the copy the goroutine receives. -/
def launchByValue (wg : WaitGroup) : WaitGroup × WaitGroup :=
  (wg, wg)

/-- Loop exit: the deferred waitGroup.Done() runs on the goroutine's copy,
leaving the main task's counter untouched. -/
def afterLoopExit (st : WaitGroup × WaitGroup) : WaitGroup × WaitGroup :=
  (st.fst, WaitGroup.done st.snd)

/-- C4 (the code defeats the claim): when the iteration loop exits, the
deferred Done brings the goroutine's copy of the counter to zero, but the
counter the main task blocks on still reads one, so the main task's wait is
never released — the decrement never reaches the counter incremented before
launch, because the WaitGroup was passed by value. -/
theorem changestream_waitgroup_copy_blocks_main :
    (afterLoopExit (launchByValue mainWaitGroup)).snd.counter = 0 ∧
      (afterLoopExit (launchByValue mainWaitGroup)).fst.counter = 1 ∧
      WaitGroup.waitReleased (afterLoopExit (launchByValue mainWaitGroup)).fst
        = false := by
  refine ⟨rfl, rfl, rfl⟩

/-! ## Claim C9: the update sample's printed counts -/

structure UpdateResult where
  matchedCount : Int
  modifiedCount : Int
  deriving DecidableEq, Repr

/-- Setting one field of a document: replaces the first binding of the key,
or appends the field when the key is absent (the dollar-set behavior). -/
def setField : BDoc → String → BVal → BDoc
  | [], k, v => [(k, v)]
  | (k1, v1) :: rest, k, v =>
    if k1 = k then (k, v) :: rest else (k1, v1) :: setField rest k v

/-- A dollar-set update document applied to a document. -/
def applySets (sets : List (String × BVal)) (d : BDoc) : BDoc :=
  sets.foldl (fun acc kv => setField acc kv.fst kv.snd) d

/-- Modelled from the spec: UpdateOne applies the dollar-set update to the
first document matching the filter; MatchedCount counts the matched
document, ModifiedCount counts it only when the update actually changed
it. -/
def updateOneSet (f : QFilter) (sets : List (String × BVal)) :
    List BDoc → List BDoc × UpdateResult
  | [] => ([], { matchedCount := 0, modifiedCount := 0 })
  | d :: rest =>
    if docMatches f d then
      (applySets sets d :: rest,
       { matchedCount := 1,
         modifiedCount := if applySets sets d = d then 0 else 1 })
    else
      ((updateOneSet f sets rest).fst.cons d, (updateOneSet f sets rest).snd)

/-- The hard-coded ObjectID of the UpdateOne call, hex
5dd890a61c9d4400003f3a31, as a Nat. -/
def updateTargetId : Nat := 0x5dd890a61c9d4400003f3a31

/-- The UpdateOne filter of the update sample: underscore-id equals the
hard-coded ObjectID. -/
def updateOneFilter : QFilter :=
  [(["_id"], QCond.eqv (BVal.scal (BScalar.oid updateTargetId)))]

/-- The UpdateOne update document: dollar-set author to "Nic Raboy". -/
def updateOneSets : List (String × BVal) :=
  [("author", BVal.scal (BScalar.str "Nic Raboy"))]

/-- The UpdateOne result line as printed by the source: the label "Updated"
with the MatchedCount field. -/
def updateOnePrint (r : UpdateResult) : String :=
  "Updated " ++ toString r.matchedCount ++ " Documents!"

/-- The UpdateMany result line as printed by the source: the label "Updated"
with the ModifiedCount field. -/
def updateManyPrint (r : UpdateResult) : String :=
  "Updated " ++ toString r.modifiedCount ++ " Documents!"

/-- The ReplaceOne result line as printed by the source: the label
"Replaced" with the ModifiedCount field. -/
def replaceOnePrint (r : UpdateResult) : String :=
  "Replaced " ++ toString r.modifiedCount ++ " Documents!"

/-- Counterexample to C9 as stated: the ReplaceOne line is not printed under
the same wording as the update lines — at equal ModifiedCount the two
printed strings differ ("Replaced" against "Updated"). -/
theorem replaceone_wording_differs :
    replaceOnePrint { matchedCount := 1, modifiedCount := 1 } ≠
      updateManyPrint { matchedCount := 1, modifiedCount := 1 } := by
  decide

theorem setField_self {d : BDoc} {k : String} {v : BVal}
    (h : getField d k = some v) : setField d k v = d := by
  induction d with
  | nil => simp [getField] at h
  | cons p rest ih =>
    obtain ⟨k1, v1⟩ := p
    simp only [getField] at h
    simp only [setField]
    by_cases hk : k1 = k
    · rw [if_pos hk] at h ⊢
      injection h with h
      rw [hk, h]
    · rw [if_neg hk] at h ⊢
      rw [ih h]

/-- C9 amended: UpdateOne prints MatchedCount under "Updated %v Documents!",
the UpdateMany calls print ModifiedCount under the same wording, and the
ReplaceOne call prints ModifiedCount under "Replaced %v Documents!"; for an
UpdateOne whose filter matches a document that already has author
"Nic Raboy", the result counts one matched and zero modified documents, the
collection is unchanged, and the program prints "Updated 1 Documents!" even
though zero documents were modified. -/
theorem updateone_prints_matched_not_modified (d : BDoc) (coll : List BDoc)
    (hmatch : docMatches updateOneFilter d = true)
    (hauthor : getField d "author" =
      some (BVal.scal (BScalar.str "Nic Raboy"))) :
    (updateOneSet updateOneFilter updateOneSets (d :: coll)).snd =
        { matchedCount := 1, modifiedCount := 0 } ∧
      (updateOneSet updateOneFilter updateOneSets (d :: coll)).fst =
        d :: coll ∧
      updateOnePrint
          (updateOneSet updateOneFilter updateOneSets (d :: coll)).snd =
        "Updated 1 Documents!" := by
  have hset : applySets updateOneSets d = d := by
    simp only [applySets, updateOneSets, List.foldl]
    exact setField_self hauthor
  have hstep : updateOneSet updateOneFilter updateOneSets (d :: coll) =
      (d :: coll, { matchedCount := 1, modifiedCount := 0 }) := by
    simp [updateOneSet, hmatch, hset]
  rw [hstep]
  refine ⟨rfl, rfl, ?_⟩
  show updateOnePrint { matchedCount := 1, modifiedCount := 0 } =
    "Updated 1 Documents!"
  decide

/-- The concrete document of the update sample's database: the podcast with
the hard-coded identifier whose author field already reads "Nic Raboy". -/
def updatedAuthorDoc : BDoc :=
  [("_id", BVal.scal (BScalar.oid updateTargetId)),
   ("author", BVal.scal (BScalar.str "Nic Raboy"))]

/-- Witness for the amended C9 at the concrete already-updated document. -/
theorem updateone_prints_matched_not_modified_witness :
    (updateOneSet updateOneFilter updateOneSets ([updatedAuthorDoc])).snd =
        { matchedCount := 1, modifiedCount := 0 } ∧
      (updateOneSet updateOneFilter updateOneSets ([updatedAuthorDoc])).fst =
        [updatedAuthorDoc] ∧
      updateOnePrint
          (updateOneSet updateOneFilter updateOneSets ([updatedAuthorDoc])).snd =
        "Updated 1 Documents!" :=
  updateone_prints_matched_not_modified updatedAuthorDoc []
    (by decide) (by decide)

/-! ## Claim C1: fatal-on-error control flow of the sample programs

Each standalone sample program is embedded as the ordered list of its
collaborator call sites that carry an error, together with how the source
handles that error.  Deferred shutdown calls (Disconnect, the change-stream
samples' stream Close, the deferred EndSession) are not listed: their errors
are discarded, but they run during process exit with no statement after
them.  Calls written in-line in a program body are listed even when they are
shutdown-flavoured: the retrieving sample closes each cursor with a plain
cursor.Close(ctx) statement whose error is discarded while further
statements follow.  Local decoding of an
already-fetched document is not a collaborator operation and is not listed;
the error value of a FindOne call chained with Decode is the query's error
channel and is listed under the query.  Cursor and change-stream iteration
is a collaborator interaction whose error the source can consult afterwards
(cursor.Err, stream.Err); an iteration site is listed with how the sample
treats that error. -/

inductive ErrHandling where
  | fatalStop
  | panicStop
  | derefStop
  | dropped
  deriving DecidableEq, Repr

structure DbCall where
  name : String
  handling : ErrHandling
  deriving DecidableEq, Repr

/-- retrieving/main.go: the two cursor loops never consult cursor.Err, so an
iteration error silently ends the loop and execution continues; each loop is
followed by an in-line cursor.Close(ctx) whose error is likewise discarded
(after the first of them, at line 42, the second query still runs). -/
def retrievingCalls : List DbCall :=
  [{ name := "Connect", handling := ErrHandling.fatalStop },
   { name := "FindOne", handling := ErrHandling.fatalStop },
   { name := "Find", handling := ErrHandling.fatalStop },
   { name := "CursorNext", handling := ErrHandling.dropped },
   { name := "CursorClose", handling := ErrHandling.dropped },
   { name := "Find", handling := ErrHandling.fatalStop },
   { name := "CursorNext", handling := ErrHandling.dropped },
   { name := "CursorClose", handling := ErrHandling.dropped }]

/-- updating/main.go: the final ReplaceOne error is never checked, but on
error the result pointer is nil and the following Printf's field access
panics, halting the process. -/
def updatingCalls : List DbCall :=
  [{ name := "Connect", handling := ErrHandling.fatalStop },
   { name := "UpdateOne", handling := ErrHandling.fatalStop },
   { name := "UpdateMany", handling := ErrHandling.fatalStop },
   { name := "UpdateMany", handling := ErrHandling.fatalStop },
   { name := "ReplaceOne", handling := ErrHandling.derefStop }]

/-- aggregation/main.go. -/
def aggregationCalls : List DbCall :=
  [{ name := "Connect", handling := ErrHandling.panicStop },
   { name := "Aggregate", handling := ErrHandling.panicStop },
   { name := "CursorAll", handling := ErrHandling.panicStop },
   { name := "Aggregate", handling := ErrHandling.panicStop },
   { name := "CursorAll", handling := ErrHandling.panicStop },
   { name := "Aggregate", handling := ErrHandling.panicStop },
   { name := "CursorAll", handling := ErrHandling.panicStop }]

/-- The delete sample (part_001, first program). -/
def deleteCalls : List DbCall :=
  [{ name := "Connect", handling := ErrHandling.fatalStop },
   { name := "DeleteOne", handling := ErrHandling.fatalStop },
   { name := "DeleteMany", handling := ErrHandling.fatalStop },
   { name := "Drop", handling := ErrHandling.fatalStop },
   { name := "Drop", handling := ErrHandling.fatalStop }]

/-- The create sample with checked errors (part_006, first program). -/
def createCalls : List DbCall :=
  [{ name := "Connect", handling := ErrHandling.fatalStop },
   { name := "InsertOne", handling := ErrHandling.fatalStop },
   { name := "InsertMany", handling := ErrHandling.fatalStop }]

/-- The fire-and-forget create variant (part_006, second program): the
errors of InsertOne and InsertMany are discarded and execution continues. -/
def createFireAndForgetCalls : List DbCall :=
  [{ name := "Connect", handling := ErrHandling.fatalStop },
   { name := "InsertOne", handling := ErrHandling.dropped },
   { name := "InsertMany", handling := ErrHandling.dropped }]

/-- transactions/main.go: a body insert error is returned to
WithTransaction, which surfaces it to main, which panics. -/
def transactionsCalls : List DbCall :=
  [{ name := "Connect", handling := ErrHandling.panicStop },
   { name := "StartSession", handling := ErrHandling.panicStop },
   { name := "InsertOne", handling := ErrHandling.panicStop },
   { name := "InsertOne", handling := ErrHandling.panicStop }]

/-- The manual transaction sample (part_003). -/
def manualTransactionCalls : List DbCall :=
  [{ name := "Connect", handling := ErrHandling.panicStop },
   { name := "StartSession", handling := ErrHandling.panicStop },
   { name := "StartTransaction", handling := ErrHandling.panicStop },
   { name := "InsertOne", handling := ErrHandling.panicStop },
   { name := "CommitTransaction", handling := ErrHandling.panicStop }]

/-- The change-stream sample (part_001, second program): after the loop it
checks stream.Err and panics on a non-nil iteration error. -/
def changeStreamCalls : List DbCall :=
  [{ name := "Connect", handling := ErrHandling.panicStop },
   { name := "Watch", handling := ErrHandling.panicStop },
   { name := "StreamNext", handling := ErrHandling.panicStop }]

/-- The filtered change-stream sample (part_002): stream.Err is never
consulted, so an iteration error silently ends the loop. -/
def changeStreamFilteredCalls : List DbCall :=
  [{ name := "Connect", handling := ErrHandling.panicStop },
   { name := "Watch", handling := ErrHandling.panicStop },
   { name := "StreamNext", handling := ErrHandling.dropped }]

/-- All standalone sample programs of the repository with their collaborator
call sites. -/
def samplePrograms : List (String × List DbCall) :=
  [("retrieving", retrievingCalls),
   ("updating", updatingCalls),
   ("aggregation", aggregationCalls),
   ("delete", deleteCalls),
   ("create", createCalls),
   ("create-fire-and-forget", createFireAndForgetCalls),
   ("transactions", transactionsCalls),
   ("manual-transaction", manualTransactionCalls),
   ("change-stream", changeStreamCalls),
   ("change-stream-filtered", changeStreamFilteredCalls)]

/-- Execution of a sample under an error assignment (fails i decides whether
the call at position i returns a non-nil error): a failing call whose error
is checked (fatal log, panic, or nil-dereference panic) halts the process
there; a failing call whose error is dropped lets execution continue.  The
result is the list of call sites that executed. -/
def execTrace (fails : Nat → Bool) : List DbCall → List DbCall
  | [] => []
  | c :: rest =>
    if fails 0 then
      if c.handling = ErrHandling.dropped then
        c :: execTrace (fun i => fails (i + 1)) rest
      else [c]
    else c :: execTrace (fun i => fails (i + 1)) rest

/-- The trace the claim asserts: execution cut at the first failing call,
whatever its handling. -/
def truncAtFailure (fails : Nat → Bool) : List DbCall → List DbCall
  | [] => []
  | c :: rest =>
    if fails 0 then [c]
    else c :: truncAtFailure (fun i => fails (i + 1)) rest

/-- Counterexample to C1 as stated: the fire-and-forget create variant is a
sample program, and with its InsertOne failing the program still executes
the subsequent InsertMany — its trace is not cut at the failing call. -/
theorem fatal_on_error_claim_false :
    ("create-fire-and-forget", createFireAndForgetCalls) ∈ samplePrograms ∧
      execTrace (fun i => i == 1) createFireAndForgetCalls ≠
        truncAtFailure (fun i => i == 1) createFireAndForgetCalls := by
  constructor
  · simp [samplePrograms]
  · decide

theorem execTrace_past_failure_dropped (prog : List DbCall)
    (fails : Nat → Bool) (i : Nat) (hfail : fails i = true)
    (hlong : i + 1 < (execTrace fails prog).length) :
    ∃ c, prog[i]? = some c ∧ c.handling = ErrHandling.dropped := by
  induction prog generalizing fails i with
  | nil => simp [execTrace] at hlong
  | cons c rest ih =>
    cases i with
    | zero =>
      by_cases hd : c.handling = ErrHandling.dropped
      · exact ⟨c, by simp, hd⟩
      · exfalso
        simp only [execTrace] at hlong
        rw [if_pos hfail, if_neg hd] at hlong
        simp at hlong
    | succ j =>
      have hfail2 : (fun k => fails (k + 1)) j = true := hfail
      simp only [execTrace] at hlong
      by_cases h0 : fails 0 = true
      · rw [if_pos h0] at hlong
        by_cases hd : c.handling = ErrHandling.dropped
        · rw [if_pos hd] at hlong
          simp only [List.length_cons] at hlong
          obtain ⟨c2, hc2, hd2⟩ := ih (fun k => fails (k + 1)) j hfail2 (by omega)
          refine ⟨c2, ?_, hd2⟩
          simpa using hc2
        · rw [if_neg hd] at hlong
          simp at hlong
      · rw [if_neg h0] at hlong
        simp only [List.length_cons] at hlong
        obtain ⟨c2, hc2, hd2⟩ := ih (fun k => fails (k + 1)) j hfail2 (by omega)
        refine ⟨c2, ?_, hd2⟩
        simpa using hc2

/-- The dropped-error sites of each sample, by sample name. -/
def droppedSitesListing : List (String × List String) :=
  samplePrograms.map fun p =>
    (p.fst,
     (p.snd.filter fun c => c.handling = ErrHandling.dropped).map
       DbCall.name)

/-- C1 amended: in every sample program and under every error assignment,
execution never continues past a failing collaborator call whose error the
program checks — if anything executes after a failing call, that call's
error is one the source drops; and across all samples the dropped
collaborator errors are exactly: the retrieving sample's cursor-iteration
and in-line cursor.Close errors, the fire-and-forget create variant's
InsertOne and InsertMany errors, and the filtered change-stream sample's
stream-iteration error.  The updating sample's unchecked ReplaceOne is not
among them: its failure still halts the process through a nil-dereference
panic, so no sample runs past a ReplaceOne error either. -/
theorem samples_never_run_past_checked_error (p : String × List DbCall)
    (_hmem : p ∈ samplePrograms) (fails : Nat → Bool) (i : Nat)
    (hfail : fails i = true)
    (hlong : i + 1 < (execTrace fails p.snd).length) :
    (∃ c, p.snd[i]? = some c ∧ c.handling = ErrHandling.dropped) ∧
      droppedSitesListing =
        [("retrieving",
          ["CursorNext", "CursorClose", "CursorNext", "CursorClose"]),
         ("updating", []),
         ("aggregation", []),
         ("delete", []),
         ("create", []),
         ("create-fire-and-forget", ["InsertOne", "InsertMany"]),
         ("transactions", []),
         ("manual-transaction", []),
         ("change-stream", []),
         ("change-stream-filtered", ["StreamNext"])] :=
  ⟨execTrace_past_failure_dropped p.snd fails i hfail hlong, by decide⟩

/-- Witness for the amended C1: in the retrieving sample with the first
cursor iteration failing, execution does continue (the second query runs),
and indeed the site at that position is one whose error the source drops. -/
theorem samples_never_run_past_checked_error_witness :
    (∃ c, retrievingCalls[3]? = some c ∧
        c.handling = ErrHandling.dropped) ∧
      droppedSitesListing =
        [("retrieving",
          ["CursorNext", "CursorClose", "CursorNext", "CursorClose"]),
         ("updating", []),
         ("aggregation", []),
         ("delete", []),
         ("create", []),
         ("create-fire-and-forget", ["InsertOne", "InsertMany"]),
         ("transactions", []),
         ("manual-transaction", []),
         ("change-stream", []),
         ("change-stream-filtered", ["StreamNext"])] :=
  samples_never_run_past_checked_error ("retrieving", retrievingCalls)
    (by decide) (fun k => k == 3) 3 (by decide) (by decide)

/-! ## Claim C6: deadlines and what they bound

Each sample constructs its contexts once in main and passes them to the
driver calls.  The embedding records, per sample, the contexts constructed
and the context each collaborator operation receives.  Deferred Disconnect
calls are not listed (they run during process exit).  -/

inductive CtxKind where
  | timeout : Nat → CtxKind
  | todo : CtxKind
  | background : CtxKind
  | cancelable : CtxKind
  | sessionDerived : CtxKind
  deriving DecidableEq, Repr

/-- Whether a context carries a deadline: only the WithTimeout contexts
do (the cancelable context of the change-stream sample has no deadline). -/
def CtxKind.hasDeadline : CtxKind → Bool
  | CtxKind.timeout _ => true
  | _ => false

structure OpCtx where
  sample : String
  op : String
  ctx : CtxKind
  deriving DecidableEq, Repr

/-- The contexts constructed by each sample, as written in the sources: six
samples build context.WithTimeout(Background, 10 seconds); the transaction
and change-stream samples use TODO and Background contexts, and the
change-stream sample additionally builds a cancelable context for the
goroutine. -/
def constructedContexts : List (String × CtxKind) :=
  [("retrieving", CtxKind.timeout 10),
   ("updating", CtxKind.timeout 10),
   ("aggregation", CtxKind.timeout 10),
   ("delete", CtxKind.timeout 10),
   ("create", CtxKind.timeout 10),
   ("create-fire-and-forget", CtxKind.timeout 10),
   ("transactions", CtxKind.todo),
   ("transactions", CtxKind.background),
   ("manual-transaction", CtxKind.todo),
   ("manual-transaction", CtxKind.background),
   ("change-stream", CtxKind.todo),
   ("change-stream", CtxKind.cancelable),
   ("change-stream-filtered", CtxKind.todo)]

/-- Every collaborator operation of every sample with the context the source
passes it. -/
def allOpContexts : List OpCtx :=
  [{ sample := "retrieving", op := "Connect", ctx := CtxKind.timeout 10 },
   { sample := "retrieving", op := "FindOne", ctx := CtxKind.timeout 10 },
   { sample := "retrieving", op := "Find", ctx := CtxKind.timeout 10 },
   { sample := "retrieving", op := "Find", ctx := CtxKind.timeout 10 },
   { sample := "updating", op := "Connect", ctx := CtxKind.timeout 10 },
   { sample := "updating", op := "UpdateOne", ctx := CtxKind.timeout 10 },
   { sample := "updating", op := "UpdateMany", ctx := CtxKind.timeout 10 },
   { sample := "updating", op := "UpdateMany", ctx := CtxKind.timeout 10 },
   { sample := "updating", op := "ReplaceOne", ctx := CtxKind.timeout 10 },
   { sample := "aggregation", op := "Connect", ctx := CtxKind.timeout 10 },
   { sample := "aggregation", op := "Aggregate", ctx := CtxKind.timeout 10 },
   { sample := "aggregation", op := "CursorAll", ctx := CtxKind.timeout 10 },
   { sample := "aggregation", op := "Aggregate", ctx := CtxKind.timeout 10 },
   { sample := "aggregation", op := "CursorAll", ctx := CtxKind.timeout 10 },
   { sample := "aggregation", op := "Aggregate", ctx := CtxKind.timeout 10 },
   { sample := "aggregation", op := "CursorAll", ctx := CtxKind.timeout 10 },
   { sample := "delete", op := "Connect", ctx := CtxKind.timeout 10 },
   { sample := "delete", op := "DeleteOne", ctx := CtxKind.timeout 10 },
   { sample := "delete", op := "DeleteMany", ctx := CtxKind.timeout 10 },
   { sample := "delete", op := "Drop", ctx := CtxKind.timeout 10 },
   { sample := "delete", op := "Drop", ctx := CtxKind.timeout 10 },
   { sample := "create", op := "Connect", ctx := CtxKind.timeout 10 },
   { sample := "create", op := "InsertOne", ctx := CtxKind.timeout 10 },
   { sample := "create", op := "InsertMany", ctx := CtxKind.timeout 10 },
   { sample := "create-fire-and-forget", op := "Connect",
     ctx := CtxKind.timeout 10 },
   { sample := "create-fire-and-forget", op := "InsertOne",
     ctx := CtxKind.timeout 10 },
   { sample := "create-fire-and-forget", op := "InsertMany",
     ctx := CtxKind.timeout 10 },
   { sample := "transactions", op := "Connect", ctx := CtxKind.todo },
   { sample := "transactions", op := "InsertOne",
     ctx := CtxKind.sessionDerived },
   { sample := "transactions", op := "InsertOne",
     ctx := CtxKind.sessionDerived },
   { sample := "manual-transaction", op := "Connect", ctx := CtxKind.todo },
   { sample := "manual-transaction", op := "InsertOne",
     ctx := CtxKind.sessionDerived },
   { sample := "manual-transaction", op := "CommitTransaction",
     ctx := CtxKind.sessionDerived },
   { sample := "change-stream", op := "Connect", ctx := CtxKind.todo },
   { sample := "change-stream", op := "Watch", ctx := CtxKind.todo },
   { sample := "change-stream", op := "StreamNext",
     ctx := CtxKind.cancelable },
   { sample := "change-stream-filtered", op := "Connect",
     ctx := CtxKind.todo },
   { sample := "change-stream-filtered", op := "Watch", ctx := CtxKind.todo },
   { sample := "change-stream-filtered", op := "StreamNext",
     ctx := CtxKind.todo }]

/-- Counterexample to C6 as stated: it is not the case that every operation
run under a deadline-carrying context is connection establishment — the
retrieving sample's Find calls (among many others) receive the ten-second
deadline context. -/
theorem deadline_bounds_only_connect_claim_false :
    ¬ (∀ s ∈ allOpContexts, s.ctx.hasDeadline = true → s.op = "Connect") := by
  decide

/-- C6 amended: the only deadline any sample constructs is the fixed
ten-second one, and every operation running under a deadline-carrying
context runs under exactly that ten-second context; but the deadline does
not bound only connection establishment — in every sample that constructs
it, every operation (connection establishment and all the data operations)
receives that same ten-second context and so runs under the remainder of
the deadline, while in the samples that construct no deadline (the
transaction and change-stream samples) every operation runs under a context
with no deadline at all. -/
theorem deadline_ten_seconds_and_data_ops :
    (∀ p ∈ constructedContexts,
        CtxKind.hasDeadline p.snd = true → p.snd = CtxKind.timeout 10) ∧
      (∀ s ∈ allOpContexts,
        CtxKind.hasDeadline s.ctx = true → s.ctx = CtxKind.timeout 10) ∧
      (∀ s ∈ allOpContexts,
        (s.sample, CtxKind.timeout 10) ∈ constructedContexts →
          s.ctx = CtxKind.timeout 10) ∧
      (∀ s ∈ allOpContexts,
        (s.sample, CtxKind.timeout 10) ∉ constructedContexts →
          CtxKind.hasDeadline s.ctx = false) := by
  refine ⟨by decide, by decide, by decide, by decide⟩

end MongoGo
